import Mathlib

/-!
# Shallow embedding of `network_monitor.py`

The script periodically probes HTTP sites, DNS servers and TCP ports,
throttles a bandwidth test to every third cycle, accumulates all results in a
global dictionary of aligned columns, and after each cycle rewrites a CSV
snapshot of the whole run.

Network effects are modelled by oracles: each probe's low-level outcome
(what the socket / HTTP library would report) is a value supplied by an
environment, and the probe functions translate that outcome into the value
the Python function returns.  Latencies and speeds are rationals (Python
floats, modelled exactly); timestamps are naturals (seconds; the Python
`"%Y-%m-%d %H:%M:%S"` formatting is order-preserving at this resolution).
-/

/-- Outcome of one `requests.get(site, timeout=5)` call, as seen by
`check_site`: either the response arrived (with its status code and the
elapsed wall-clock milliseconds measured around the call), or a
`requests.RequestException` was raised (connection error or timeout). -/
inductive HttpOutcome where
  | success (status : Nat) (elapsedMs : ℚ)
  | timedOut
  | transportError
deriving DecidableEq, Repr

/-- Function `check_site` (src/network_monitor.py:40-48): returns the elapsed
milliseconds when the GET completed with status 200, `None` otherwise;
`requests.RequestException` (including timeouts) is caught and yields
`None`. -/
def check_site : HttpOutcome → Option ℚ
  | .success status elapsedMs => if status = 200 then some elapsedMs else none
  | .timedOut => none
  | .transportError => none

/-- Outcome of the `socket.gethostbyaddr(dns_server)` call, as seen by
`check_dns`: either it returned (elapsed wall-clock milliseconds measured
around the call) or a `socket.error` was raised. -/
inductive DnsOutcome where
  | success (elapsedMs : ℚ)
  | sockError
deriving DecidableEq, Repr

/-- Function `check_dns` (src/network_monitor.py:50-59): returns the elapsed
milliseconds of the reverse resolution, `None` on any `socket.error`. -/
def check_dns : DnsOutcome → Option ℚ
  | .success elapsedMs => some elapsedMs
  | .sockError => none

/-- Outcome of a TCP connect attempt to one `(host, port)`, as seen by
`check_port`: `connect_ex` returned 0 (connected), returned a nonzero
error code (refused / timed out inside `connect_ex`), or a `socket.error`
was raised while setting up or connecting. -/
inductive PortOutcome where
  | connected
  | refused
  | timedOut
  | sockError
deriving DecidableEq, Repr

/-- The network as the port prober sees it: what a TCP connect to a given
`(host, port)` would do. -/
def PortNet : Type := String → Nat → PortOutcome

/-- Function `check_port` (src/network_monitor.py:61-70): `connect_ex((host, port))`
with a 2 s timeout; `True` exactly when it returned 0, `False` on a nonzero
code, and `False` when a `socket.error` is raised. -/
def check_port (net : PortNet) (host : String) (port : Nat) : Bool :=
  match net host port with
  | .connected => true
  | .refused => false
  | .timedOut => false
  | .sockError => false

/-- Outcome of one run of the speedtest block, as seen by `measure_speed`:
either every step succeeded (raw download and upload rates in bits/s), or a
`speedtest.SpeedtestException` was raised at one of the three stages
(`get_best_server`, `download`, `upload`).  When `upload` fails the already
measured download rate is discarded, so it is recorded in the outcome. -/
inductive SpeedOutcome where
  | ok (downloadBps uploadBps : ℚ)
  | exnBestServer
  | exnDownload
  | exnUpload (downloadBps : ℚ)
deriving DecidableEq, Repr

/-- Function `measure_speed` (src/network_monitor.py:72-81): converts bits/s to
Mbps by dividing by 1 000 000; any `speedtest.SpeedtestException` in
endpoint selection, download, or upload is caught and yields
`(None, None)`. -/
def measure_speed : SpeedOutcome → Option ℚ × Option ℚ
  | .ok downloadBps uploadBps =>
      (some (downloadBps / 1000000), some (uploadBps / 1000000))
  | .exnBestServer => (none, none)
  | .exnDownload => (none, none)
  | .exnUpload _ => (none, none)

/-- The configuration constants of the script (src/network_monitor.py:13-28),
kept abstract so that the invariants hold for every configured target
list. -/
structure Config where
  SITES : List String
  DNS_SERVERS : List String
  PORTS : List Nat
  INTERVAL : Nat
  DURATION : Nat
deriving Repr

/-- The literal `SITES` list of the script (src/network_monitor.py:13-23). -/
def SITES : List String :=
  [ "https://www.google.com",
    "https://www.office.com",
    "https://chat.google.com",
    "https://www.canva.com/es_es/",
    "https://us04web.zoom.us/s",
    "https://presencial.uagrm.edu.bo/",
    "https://virtual.uagrm.edu.bo/",
    "https://meet.google.com" ]

/-- The literal `DNS_SERVERS` list (src/network_monitor.py:24). -/
def DNS_SERVERS : List String := ["172.21.1.7", "8.8.8.8"]

/-- The literal `PORTS` list (src/network_monitor.py:25). -/
def PORTS : List Nat := [80, 443, 3389]

/-- The script's configuration constants assembled
(src/network_monitor.py:13-28): INTERVAL = 180, DURATION = 1800. -/
def defaultConfig : Config :=
  { SITES := SITES, DNS_SERVERS := DNS_SERVERS, PORTS := PORTS,
    INTERVAL := 180, DURATION := 1800 }

/-- The global `results` accumulator (src/network_monitor.py:31-38).  The
Python dictionaries keyed by site / DNS server / port are modelled as total
functions (every key the program never touches keeps its initial empty
column). -/
structure Results where
  timestamp : List Nat
  site_latencies : String → List (Option ℚ)
  dns_times : String → List (Option ℚ)
  port_status : Nat → List Bool
  download_speed : List (Option ℚ)
  upload_speed : List (Option ℚ)

/-- The initial `results` value: every column empty
(src/network_monitor.py:31-38). -/
def initResults : Results :=
  { timestamp := []
    site_latencies := fun _ => []
    dns_times := fun _ => []
    port_status := fun _ => []
    download_speed := []
    upload_speed := [] }

/-- One `for key in keys: d[key].append(val(key))` pass over a keyed column
dictionary, as in the three probe loops of `main`
(src/network_monitor.py:153-165). -/
def appendAll {κ β : Type} [DecidableEq κ]
    (keys : List κ) (val : κ → β) (d : κ → List β) : κ → List β :=
  keys.foldl (fun acc k => Function.update acc k (acc k ++ [val k])) d

/-- The environment of one run: per-cycle oracles for every network effect
and the wall clock.  `clock i` is the `datetime.now()` reading taken at the
start of cycle `i` (0-based). -/
structure Env where
  httpOutcome : Nat → String → HttpOutcome
  dnsOutcome : Nat → String → DnsOutcome
  portNet : Nat → PortNet
  speedOutcome : Nat → SpeedOutcome
  clock : Nat → Nat

/-- The body of the `while` loop of `main` (src/network_monitor.py:148-173),
for cycle `i` (0-based): append the timestamp, probe every site, DNS server
and port (the port host is the literal string "example.com",
src/network_monitor.py:164), then run the speed test only when the new
length of the timestamp column is a multiple of 3
(src/network_monitor.py:168, checked after the timestamp was appended), and
append both bandwidth values. -/
def runCycle (cfg : Config) (env : Env) (i : Nat) (r : Results) : Results :=
  let r1 := { r with timestamp := r.timestamp ++ [env.clock i] }
  let r2 := { r1 with
    site_latencies :=
      appendAll cfg.SITES (fun s => check_site (env.httpOutcome i s)) r1.site_latencies }
  let r3 := { r2 with
    dns_times :=
      appendAll cfg.DNS_SERVERS (fun d => check_dns (env.dnsOutcome i d)) r2.dns_times }
  let r4 := { r3 with
    port_status :=
      appendAll cfg.PORTS (fun p => check_port (env.portNet i) "example.com" p) r3.port_status }
  let du :=
    if r4.timestamp.length % 3 = 0 then measure_speed (env.speedOutcome i)
    else (none, none)
  { r4 with
    download_speed := r4.download_speed ++ [du.1]
    upload_speed := r4.upload_speed ++ [du.2] }

/-- The state of `results` after `n` completed cycles of `main`
(src/network_monitor.py:148-173), starting from the empty accumulator. -/
def runCycles (cfg : Config) (env : Env) : Nat → Results
  | 0 => initResults
  | n + 1 => runCycle cfg env n (runCycles cfg env n)

/-! ## The CSV snapshot (`save_to_csv`, src/network_monitor.py:83-102)

The physical string formatting of the CSV writer is an external collaborator;
what is modelled is the cell-level content of each row.  A cell is a header
string, a timestamp, the explicit `"N/A"` marker, a number, or a boolean.
Crucially, the script renders an optional value `x` with the Python
expression `x or "N/A"`, which tests *falsiness*: both `None` and `0.0`
render as `"N/A"`. -/
inductive Cell where
  | str (s : String)
  | ts (t : Nat)
  | na
  | num (v : ℚ)
  | bool (b : Bool)
deriving DecidableEq, Repr

/-- The Python rendering `x or "N/A"` of an optional float cell
(src/network_monitor.py:95,97,100,101): `None` is falsy, and so is `0.0`,
so both render as the `"N/A"` marker. -/
def pyOr : Option ℚ → Cell
  | none => Cell.na
  | some v => if v = 0 then Cell.na else Cell.num v

/-- The header row written by `save_to_csv` (src/network_monitor.py:87-90). -/
def headerRow (cfg : Config) : List Cell :=
  Cell.str "Timestamp"
    :: (cfg.SITES.map (fun s => Cell.str ("Latency_" ++ s))
        ++ cfg.DNS_SERVERS.map (fun d => Cell.str ("DNS_" ++ d))
        ++ cfg.PORTS.map (fun p => Cell.str ("Port_" ++ toString p))
        ++ [Cell.str "Download_Speed", Cell.str "Upload_Speed"])

/-- The data row for sample index `i` (src/network_monitor.py:92-102):
timestamp, then one cell per site, per DNS server, per port (booleans are
written as they are, with no `or "N/A"`), then both bandwidth cells.  The
Python code indexes each column with `[i]` directly; `getD` totalizes the
out-of-range case that the aligned-columns invariant rules out. -/
def csvRow (cfg : Config) (r : Results) (i : Nat) : List Cell :=
  Cell.ts (r.timestamp.getD i 0)
    :: (cfg.SITES.map (fun s => pyOr ((r.site_latencies s).getD i none))
        ++ cfg.DNS_SERVERS.map (fun d => pyOr ((r.dns_times d).getD i none))
        ++ cfg.PORTS.map (fun p => Cell.bool ((r.port_status p).getD i false))
        ++ [pyOr (r.download_speed.getD i none), pyOr (r.upload_speed.getD i none)])

/-- Function `save_to_csv` (src/network_monitor.py:83-102): the full content written
to the output file — the header row followed by one data row per stored
sample.  The file is opened with mode `w`, so this content *replaces*
whatever the file held before. -/
def save_to_csv (cfg : Config) (r : Results) : List (List Cell) :=
  headerRow cfg :: (List.range r.timestamp.length).map (csvRow cfg r)

/-- Re-parsing a numeric CSV cell, as a downstream consumer would: the
`"N/A"` marker means unavailable, a number is itself. -/
def parseNumCell : Cell → Option ℚ
  | Cell.num v => some v
  | _ => none

/-- Re-parsing a boolean CSV cell (`True` / `False` as written by the
csv writer for Python booleans). -/
def parseBoolCell : Cell → Bool
  | Cell.bool b => b
  | _ => false

/-- Re-parsing a timestamp CSV cell. -/
def parseTsCell : Cell → Nat
  | Cell.ts t => t
  | _ => 0

/-- One cycle of `main` together with its export step
(src/network_monitor.py:148-177): the accumulator is extended by
`runCycle`, and the CSV file content is *replaced* by the snapshot of the
whole run-to-date (`save_to_csv` opens the file with mode `w`; the previous
file content `st.2` is discarded, not appended to). -/
def runCycleFile (cfg : Config) (env : Env) (i : Nat)
    (st : Results × List (List Cell)) : Results × List (List Cell) :=
  let r := runCycle cfg env i st.1
  (r, save_to_csv cfg r)

/-- Accumulator and file content after `n` cycles, starting from the empty
accumulator and an empty file. -/
def runCyclesFile (cfg : Config) (env : Env) : Nat → Results × List (List Cell)
  | 0 => (initResults, [])
  | n + 1 => runCycleFile cfg env n (runCyclesFile cfg env n)

/-! ## The scheduler loop (`main`, src/network_monitor.py:145-179) -/

/-- The `while time.time() - start_time < DURATION` loop of `main`
(src/network_monitor.py:148-179), in discrete time: `elapsed` is the time
spent since `start_time` when the guard is checked, each cycle body takes
`cost i` seconds, and `asyncio.sleep(INTERVAL)` adds `INTERVAL` seconds
before the next guard check.  The model terminates only for a positive
interval (with `INTERVAL = 0` and zero-cost cycles the source loop would
never exhaust its budget), so a positive interval is folded into the
guard; the script's own interval is 180. -/
def mainLoop (cfg : Config) (env : Env) (cost : Nat → Nat) :
    Nat → Nat → Results → Results :=
  fun i elapsed r =>
    if h : elapsed < cfg.DURATION ∧ 0 < cfg.INTERVAL then
      mainLoop cfg env cost (i + 1) (elapsed + cost i + cfg.INTERVAL)
        (runCycle cfg env i r)
    else r
termination_by i elapsed r => cfg.DURATION - elapsed
decreasing_by omega

/-- A whole run of `main`: the loop started at time zero on the empty
accumulator. -/
def mainRun (cfg : Config) (env : Env) (cost : Nat → Nat) : Results :=
  mainLoop cfg env cost 0 0 initResults

/-! ## Concrete environments used to instantiate the theorems -/

/-- An environment where every probe fails: every GET raises a transport
error, every reverse resolution raises, every TCP connect times out, and
the speed test fails at endpoint selection.  The clock just counts
cycles. -/
def envAllFail : Env :=
  { httpOutcome := fun _ _ => HttpOutcome.transportError
    dnsOutcome := fun _ _ => DnsOutcome.sockError
    portNet := fun _ _ _ => PortOutcome.timedOut
    speedOutcome := fun _ => SpeedOutcome.exnBestServer
    clock := fun i => i }

/-- Like `envAllFail`, but the speed test succeeds with 8 Mbps down and
4 Mbps up (raw rates in bits/s). -/
def envSpeedOk : Env :=
  { envAllFail with speedOutcome := fun _ => SpeedOutcome.ok 8000000 4000000 }

/-- Like `envAllFail`, but TCP connects to any host *other* than
"example.com" succeed.  Since the script hard-codes the host
"example.com", a run in this environment is indistinguishable from a run
in `envAllFail`. -/
def envPortOther : Env :=
  { envAllFail with
    portNet := fun _ host _ =>
      if host = "example.com" then PortOutcome.timedOut else PortOutcome.connected }

/-- The single-site configuration of the spec's scenario: one HTTP target,
interval 1 s, duration 3 s. -/
def scenarioConfig : Config :=
  { SITES := ["https://example.com"], DNS_SERVERS := [], PORTS := [],
    INTERVAL := 1, DURATION := 3 }

/-- A one-sample accumulator for the scenario configuration whose single
site latency is a true zero-millisecond reading. -/
def zeroLatencyResults : Results :=
  { timestamp := [17]
    site_latencies := fun _ => [some 0]
    dns_times := fun _ => [none]
    port_status := fun _ => [false]
    download_speed := [none]
    upload_speed := [none] }

/-- The same accumulator with the site latency unavailable instead. -/
def noneLatencyResults : Results :=
  { zeroLatencyResults with site_latencies := fun _ => [none] }

/-- A one-sample accumulator with a nonzero latency, an open port and one
present bandwidth value, used to evaluate the CSV round trip. -/
def sampleResults : Results :=
  { timestamp := [5]
    site_latencies := fun _ => [some (3 / 2)]
    dns_times := fun _ => [none]
    port_status := fun _ => [true]
    download_speed := [none]
    upload_speed := [some 4] }

/-! ## Basic lemmas about `appendAll` -/

theorem appendAll_not_mem {κ β : Type} [DecidableEq κ]
    (keys : List κ) (val : κ → β) (d : κ → List β) (k : κ) (hk : k ∉ keys) :
    appendAll keys val d k = d k := by
  induction keys generalizing d with
  | nil => rfl
  | cons a as ih =>
      simp only [List.mem_cons, not_or] at hk
      simp only [appendAll, List.foldl_cons]
      rw [show List.foldl (fun acc k => Function.update acc k (acc k ++ [val k]))
            (Function.update d a (d a ++ [val a])) as
          = appendAll as val (Function.update d a (d a ++ [val a])) from rfl]
      rw [ih _ hk.2, Function.update_noteq hk.1]

theorem appendAll_mem {κ β : Type} [DecidableEq κ]
    (keys : List κ) (val : κ → β) (d : κ → List β) (k : κ)
    (hnd : keys.Nodup) (hk : k ∈ keys) :
    appendAll keys val d k = d k ++ [val k] := by
  induction keys generalizing d with
  | nil => cases hk
  | cons a as ih =>
      rw [List.nodup_cons] at hnd
      simp only [appendAll, List.foldl_cons]
      rw [show List.foldl (fun acc k => Function.update acc k (acc k ++ [val k]))
            (Function.update d a (d a ++ [val a])) as
          = appendAll as val (Function.update d a (d a ++ [val a])) from rfl]
      rcases List.mem_cons.mp hk with h | h
      · subst h
        rw [appendAll_not_mem as val _ k hnd.1, Function.update_same]
      · have hka : k ≠ a := fun he => hnd.1 (he ▸ h)
        rw [ih _ hnd.2 h, Function.update_noteq hka]

/-! ## Projection lemmas for one cycle -/

theorem runCycle_timestamp (cfg : Config) (env : Env) (i : Nat) (r : Results) :
    (runCycle cfg env i r).timestamp = r.timestamp ++ [env.clock i] := by
  simp only [runCycle]

theorem runCycle_site_latencies (cfg : Config) (env : Env) (i : Nat) (r : Results) :
    (runCycle cfg env i r).site_latencies
      = appendAll cfg.SITES (fun s => check_site (env.httpOutcome i s)) r.site_latencies := by
  simp only [runCycle]

theorem runCycle_dns_times (cfg : Config) (env : Env) (i : Nat) (r : Results) :
    (runCycle cfg env i r).dns_times
      = appendAll cfg.DNS_SERVERS (fun d => check_dns (env.dnsOutcome i d)) r.dns_times := by
  simp only [runCycle]

theorem runCycle_port_status (cfg : Config) (env : Env) (i : Nat) (r : Results) :
    (runCycle cfg env i r).port_status
      = appendAll cfg.PORTS (fun p => check_port (env.portNet i) "example.com" p)
          r.port_status := by
  simp only [runCycle]

theorem runCycle_download_speed (cfg : Config) (env : Env) (i : Nat) (r : Results) :
    (runCycle cfg env i r).download_speed
      = r.download_speed
          ++ [if (r.timestamp.length + 1) % 3 = 0
              then (measure_speed (env.speedOutcome i)).1 else none] := by
  simp only [runCycle, List.length_append, List.length_singleton]
  rw [apply_ite Prod.fst]

theorem runCycle_upload_speed (cfg : Config) (env : Env) (i : Nat) (r : Results) :
    (runCycle cfg env i r).upload_speed
      = r.upload_speed
          ++ [if (r.timestamp.length + 1) % 3 = 0
              then (measure_speed (env.speedOutcome i)).2 else none] := by
  simp only [runCycle, List.length_append, List.length_singleton]
  rw [apply_ite Prod.snd]

/-! ## The accumulator after `n` cycles -/

theorem runCycles_timestamp (cfg : Config) (env : Env) (n : Nat) :
    (runCycles cfg env n).timestamp = (List.range n).map env.clock := by
  induction n with
  | zero => rfl
  | succ n ih =>
      rw [runCycles, runCycle_timestamp, ih, List.range_succ, List.map_append,
        List.map_singleton]

theorem runCycles_site_latencies (cfg : Config) (env : Env) (n : Nat)
    (hS : cfg.SITES.Nodup) (s : String) (hs : s ∈ cfg.SITES) :
    (runCycles cfg env n).site_latencies s
      = (List.range n).map (fun i => check_site (env.httpOutcome i s)) := by
  induction n with
  | zero => rfl
  | succ n ih =>
      rw [runCycles, runCycle_site_latencies, appendAll_mem _ _ _ _ hS hs, ih,
        List.range_succ, List.map_append, List.map_singleton]

theorem runCycles_dns_times (cfg : Config) (env : Env) (n : Nat)
    (hD : cfg.DNS_SERVERS.Nodup) (d : String) (hd : d ∈ cfg.DNS_SERVERS) :
    (runCycles cfg env n).dns_times d
      = (List.range n).map (fun i => check_dns (env.dnsOutcome i d)) := by
  induction n with
  | zero => rfl
  | succ n ih =>
      rw [runCycles, runCycle_dns_times, appendAll_mem _ _ _ _ hD hd, ih,
        List.range_succ, List.map_append, List.map_singleton]

theorem runCycles_port_status (cfg : Config) (env : Env) (n : Nat)
    (hP : cfg.PORTS.Nodup) (p : Nat) (hp : p ∈ cfg.PORTS) :
    (runCycles cfg env n).port_status p
      = (List.range n).map (fun i => check_port (env.portNet i) "example.com" p) := by
  induction n with
  | zero => rfl
  | succ n ih =>
      rw [runCycles, runCycle_port_status, appendAll_mem _ _ _ _ hP hp, ih,
        List.range_succ, List.map_append, List.map_singleton]

theorem runCycles_download_speed (cfg : Config) (env : Env) (n : Nat) :
    (runCycles cfg env n).download_speed
      = (List.range n).map
          (fun i => if (i + 1) % 3 = 0 then (measure_speed (env.speedOutcome i)).1
                    else none) := by
  induction n with
  | zero => rfl
  | succ n ih =>
      rw [runCycles, runCycle_download_speed, ih, runCycles_timestamp,
        List.length_map, List.length_range, List.range_succ, List.map_append,
        List.map_singleton]

theorem runCycles_upload_speed (cfg : Config) (env : Env) (n : Nat) :
    (runCycles cfg env n).upload_speed
      = (List.range n).map
          (fun i => if (i + 1) % 3 = 0 then (measure_speed (env.speedOutcome i)).2
                    else none) := by
  induction n with
  | zero => rfl
  | succ n ih =>
      rw [runCycles, runCycle_upload_speed, ih, runCycles_timestamp,
        List.length_map, List.length_range, List.range_succ, List.map_append,
        List.map_singleton]

/-! ## C3, C4, C5: probe contracts -/

/-- C3: `check_site` returns an elapsed-milliseconds value exactly when the
GET completed within the timeout with HTTP status 200; a status of 500, a
timeout, or a transport error yields the unavailable marker.  `check_site`
is a total function of the request outcome, so no exception reaches the
caller. -/
theorem check_site_contract :
    (∀ (o : HttpOutcome) (t : ℚ),
        check_site o = some t ↔ o = HttpOutcome.success 200 t)
    ∧ (∀ t : ℚ, check_site (HttpOutcome.success 500 t) = none)
    ∧ check_site HttpOutcome.timedOut = none
    ∧ check_site HttpOutcome.transportError = none := by
  refine ⟨fun o t => ?_, fun t => by simp [check_site], rfl, rfl⟩
  cases o with
  | success status elapsedMs =>
      by_cases h : status = 200 <;>
        simp [check_site, h, eq_comm (a := elapsedMs)]
  | timedOut => simp [check_site]
  | transportError => simp [check_site]

/-- C4: `check_port` yields a boolean measurement: `true` exactly when the
TCP connect succeeded within the timeout, and `false` (a valid measurement
— the return type has no unavailable marker, and the only possible
exception is caught) whenever it did not, in particular on a closed
(refusing) port. -/
theorem check_port_contract :
    (∀ (net : PortNet) (host : String) (port : Nat),
        (check_port net host port = true ↔ net host port = PortOutcome.connected)
        ∧ (check_port net host port = false ↔ net host port ≠ PortOutcome.connected))
    ∧ (∀ (host : String) (port : Nat),
        check_port (fun _ _ => PortOutcome.refused) host port = false) := by
  refine ⟨fun net host port => ?_, fun host port => rfl⟩
  cases h : net host port <;> simp [check_port, h]

/-- C5: `measure_speed` is never partial: its result is either a pair of
present Mbps values (when every speedtest step succeeded) or the
unavailable marker for both download and upload (when endpoint selection,
the download test, or the upload test raised). -/
theorem measure_speed_contract :
    (∀ o : SpeedOutcome,
        measure_speed o = (none, none)
          ∨ ∃ d u : ℚ, measure_speed o = (some d, some u))
    ∧ (∀ o : SpeedOutcome,
        ((measure_speed o).1.isSome ↔ (measure_speed o).2.isSome))
    ∧ (∀ d u : ℚ, measure_speed (SpeedOutcome.ok d u)
        = (some (d / 1000000), some (u / 1000000)))
    ∧ measure_speed SpeedOutcome.exnBestServer = (none, none)
    ∧ measure_speed SpeedOutcome.exnDownload = (none, none)
    ∧ (∀ d : ℚ, measure_speed (SpeedOutcome.exnUpload d) = (none, none)) := by
  refine ⟨fun o => ?_, fun o => ?_, fun d u => rfl, rfl, rfl, fun d => rfl⟩
  · cases o with
    | ok d u => exact Or.inr ⟨d / 1000000, u / 1000000, rfl⟩
    | exnBestServer => exact Or.inl rfl
    | exnDownload => exact Or.inl rfl
    | exnUpload d => exact Or.inl rfl
  · cases o <;> simp [measure_speed]

/-! ## C1, C2, C6: the accumulator invariants -/

/-- C1: every completed cycle appends exactly one entry to the timestamp
column, to the latency column of every configured site, to the column of
every configured DNS server, to the column of every configured port, and to
both bandwidth columns — for an arbitrary environment, hence also when
every probe returns the unavailable marker; consequently after `n` cycles
every per-target column has exactly one slot per sample. -/
theorem cycle_appends_one_entry_per_column (cfg : Config) (env : Env)
    (hS : cfg.SITES.Nodup) (hD : cfg.DNS_SERVERS.Nodup) (hP : cfg.PORTS.Nodup) :
    (∀ (i : Nat) (r : Results),
        (runCycle cfg env i r).timestamp = r.timestamp ++ [env.clock i]
        ∧ (∀ s ∈ cfg.SITES,
            (runCycle cfg env i r).site_latencies s
              = r.site_latencies s ++ [check_site (env.httpOutcome i s)])
        ∧ (∀ d ∈ cfg.DNS_SERVERS,
            (runCycle cfg env i r).dns_times d
              = r.dns_times d ++ [check_dns (env.dnsOutcome i d)])
        ∧ (∀ p ∈ cfg.PORTS,
            (runCycle cfg env i r).port_status p
              = r.port_status p ++ [check_port (env.portNet i) "example.com" p])
        ∧ (runCycle cfg env i r).download_speed.length = r.download_speed.length + 1
        ∧ (runCycle cfg env i r).upload_speed.length = r.upload_speed.length + 1)
    ∧ (∀ n : Nat,
        (runCycles cfg env n).timestamp.length = n
        ∧ (∀ s ∈ cfg.SITES, ((runCycles cfg env n).site_latencies s).length = n)
        ∧ (∀ d ∈ cfg.DNS_SERVERS, ((runCycles cfg env n).dns_times d).length = n)
        ∧ (∀ p ∈ cfg.PORTS, ((runCycles cfg env n).port_status p).length = n)
        ∧ (runCycles cfg env n).download_speed.length = n
        ∧ (runCycles cfg env n).upload_speed.length = n) := by
  constructor
  · intro i r
    refine ⟨runCycle_timestamp cfg env i r, fun s hs => ?_, fun d hd => ?_,
      fun p hp => ?_, ?_, ?_⟩
    · rw [runCycle_site_latencies, appendAll_mem _ _ _ _ hS hs]
    · rw [runCycle_dns_times, appendAll_mem _ _ _ _ hD hd]
    · rw [runCycle_port_status, appendAll_mem _ _ _ _ hP hp]
    · rw [runCycle_download_speed]; simp
    · rw [runCycle_upload_speed]; simp
  · intro n
    refine ⟨?_, fun s hs => ?_, fun d hd => ?_, fun p hp => ?_, ?_, ?_⟩
    · rw [runCycles_timestamp]; simp
    · rw [runCycles_site_latencies cfg env n hS s hs]; simp
    · rw [runCycles_dns_times cfg env n hD d hd]; simp
    · rw [runCycles_port_status cfg env n hP p hp]; simp
    · rw [runCycles_download_speed]; simp
    · rw [runCycles_upload_speed]; simp

/-- Witness for C1 at the script's own configuration, in the environment
where every probe fails. -/
theorem cycle_appends_one_entry_per_column_witness :
    (runCycles defaultConfig envAllFail 2).timestamp.length = 2
    ∧ ((runCycles defaultConfig envAllFail 2).site_latencies
        "https://www.google.com").length = 2
    ∧ ((runCycles defaultConfig envAllFail 2).port_status 3389).length = 2 := by
  have h := cycle_appends_one_entry_per_column defaultConfig envAllFail
    (by decide) (by decide) (by decide)
  exact ⟨(h.2 2).1, (h.2 2).2.1 "https://www.google.com" (by decide),
    (h.2 2).2.2.2.1 3389 (by decide)⟩

/-- C2: the speed test is attempted exactly on cycles whose 1-based index
is a multiple of the throttle factor 3 (the code tests
`len(results["timestamp"]) % 3 == 0` after appending the new timestamp),
and every other cycle records the unavailable marker for both bandwidth
columns; in a run of exactly 3 cycles the first two samples record the
marker and the third records the speed-test attempt's result. -/
theorem speed_throttle_cadence (cfg : Config) (env : Env) :
    (∀ n : Nat,
        (runCycles cfg env n).download_speed
          = (List.range n).map
              (fun i => if (i + 1) % 3 = 0
                        then (measure_speed (env.speedOutcome i)).1 else none)
        ∧ (runCycles cfg env n).upload_speed
          = (List.range n).map
              (fun i => if (i + 1) % 3 = 0
                        then (measure_speed (env.speedOutcome i)).2 else none))
    ∧ (runCycles cfg env 3).download_speed
        = [none, none, (measure_speed (env.speedOutcome 2)).1]
    ∧ (runCycles cfg env 3).upload_speed
        = [none, none, (measure_speed (env.speedOutcome 2)).2] := by
  refine ⟨fun n => ⟨runCycles_download_speed cfg env n,
    runCycles_upload_speed cfg env n⟩, ?_, ?_⟩
  · rw [runCycles_download_speed]; rfl
  · rw [runCycles_upload_speed]; rfl

/-- C6: after `n` completed cycles the timestamp column has length exactly
`n`, and as long as the wall clock read at each cycle start is monotone,
the stored timestamps are non-decreasing in insertion order. -/
theorem series_length_and_order (cfg : Config) (env : Env) (n : Nat)
    (hc : Monotone env.clock) :
    (runCycles cfg env n).timestamp.length = n
    ∧ (runCycles cfg env n).timestamp.Sorted (· ≤ ·) := by
  rw [runCycles_timestamp]
  refine ⟨by simp, ?_⟩
  exact (List.pairwise_lt_range n).map env.clock
    (fun a b hab => hc (le_of_lt hab))

/-- Witness for C6 at the script's configuration with the cycle-counting
clock. -/
theorem series_length_and_order_witness :
    (runCycles defaultConfig envAllFail 3).timestamp.length = 3
    ∧ (runCycles defaultConfig envAllFail 3).timestamp.Sorted (· ≤ ·) :=
  series_length_and_order defaultConfig envAllFail 3 (fun _ _ h => h)

/-! ## C10: the port probe host is hard-coded -/

/-- C10: `main` passes the literal string "example.com" as the host of every
port check (src/network_monitor.py:164) — no configuration value reaches the
host argument.  Stated two ways: (a) for every configuration and every
configured port, the stored port column is exactly the sequence of
`check_port` results at host "example.com"; and (b) two environments whose
TCP behaviour agrees at host "example.com" (and agree on the other oracles)
produce identical runs, however the network behaves at every other host. -/
theorem port_probe_host_hardcoded (cfg : Config) (env env2 : Env) (n : Nat)
    (hP : cfg.PORTS.Nodup)
    (hhttp : env2.httpOutcome = env.httpOutcome)
    (hdns : env2.dnsOutcome = env.dnsOutcome)
    (hspeed : env2.speedOutcome = env.speedOutcome)
    (hclock : env2.clock = env.clock)
    (hport : ∀ (i p : Nat),
        env2.portNet i "example.com" p = env.portNet i "example.com" p) :
    (∀ p ∈ cfg.PORTS,
        (runCycles cfg env n).port_status p
          = (List.range n).map
              (fun i => check_port (env.portNet i) "example.com" p))
    ∧ runCycles cfg env2 n = runCycles cfg env n := by
  refine ⟨fun p hp => runCycles_port_status cfg env n hP p hp, ?_⟩
  induction n with
  | zero => rfl
  | succ n ih =>
      rw [runCycles, runCycles, ih]
      have hpn : (fun p => check_port (env2.portNet n) "example.com" p)
          = (fun p => check_port (env.portNet n) "example.com" p) := by
        funext p
        simp only [check_port, hport]
      simp only [runCycle, hhttp, hdns, hspeed, hclock, hpn]

/-- Witness for C10: a network that accepts TCP connects at every host other
than "example.com" is indistinguishable from one that accepts none, and the
recorded port column holds the probes of "example.com". -/
theorem port_probe_host_hardcoded_witness :
    runCycles defaultConfig envPortOther 2 = runCycles defaultConfig envAllFail 2
    ∧ (runCycles defaultConfig envAllFail 2).port_status 80 = [false, false] := by
  have h := port_probe_host_hardcoded defaultConfig envAllFail envPortOther 2
    (by decide) rfl rfl rfl rfl
    (fun i p => by simp [envPortOther, envAllFail])
  refine ⟨h.2, ?_⟩
  rw [h.1 80 (by decide)]
  rfl

/-! ## C9: the scheduler loop terminates after whole cycles -/

theorem mainLoop_step (cfg : Config) (env : Env) (cost : Nat → Nat)
    (i elapsed : Nat) (r : Results)
    (h : elapsed < cfg.DURATION) (hI : 0 < cfg.INTERVAL) :
    mainLoop cfg env cost i elapsed r
      = mainLoop cfg env cost (i + 1) (elapsed + cost i + cfg.INTERVAL)
          (runCycle cfg env i r) := by
  rw [mainLoop]
  rw [dif_pos ⟨h, hI⟩]

theorem mainLoop_stop (cfg : Config) (env : Env) (cost : Nat → Nat)
    (i elapsed : Nat) (r : Results) (h : ¬ elapsed < cfg.DURATION) :
    mainLoop cfg env cost i elapsed r = r := by
  rw [mainLoop]
  rw [dif_neg (by tauto)]

theorem mainLoop_completes (cfg : Config) (env : Env) (cost : Nat → Nat) :
    ∀ (d i elapsed : Nat), cfg.DURATION - elapsed ≤ d →
      ∃ k, mainLoop cfg env cost i elapsed (runCycles cfg env i)
            = runCycles cfg env (i + k) := by
  intro d
  induction d with
  | zero =>
      intro i elapsed h
      exact ⟨0, mainLoop_stop cfg env cost i elapsed _ (by omega)⟩
  | succ d ih =>
      intro i elapsed h
      by_cases hlt : elapsed < cfg.DURATION
      · by_cases hI : 0 < cfg.INTERVAL
        · rw [mainLoop_step cfg env cost i elapsed _ hlt hI]
          obtain ⟨k, hk⟩ := ih (i + 1) (elapsed + cost i + cfg.INTERVAL) (by omega)
          refine ⟨k + 1, ?_⟩
          have hr : runCycle cfg env i (runCycles cfg env i)
              = runCycles cfg env (i + 1) := rfl
          rw [hr, hk]
          congr 1
          omega
        · refine ⟨0, ?_⟩
          rw [mainLoop]
          rw [dif_neg (by tauto)]
          rfl
      · exact ⟨0, mainLoop_stop cfg env cost i elapsed _ hlt⟩

/-- C9: with a positive inter-cycle interval the scheduler loop always
terminates, having run some whole number of cycles (the accumulator equals
`runCycles` at some `n` — never a partially executed cycle); and in the
spec's scenario (interval 1 s, duration 3 s, negligible cycle cost) it runs
exactly 3 cycles, producing exactly 3 samples. -/
theorem scheduler_loop_bounded (cfg : Config) (env : Env) (cost : Nat → Nat)
    (hI : 0 < cfg.INTERVAL) :
    (∃ n : Nat, mainRun cfg env cost = runCycles cfg env n)
    ∧ (cfg.INTERVAL = 1 → cfg.DURATION = 3 → (∀ i, cost i = 0) →
        mainRun cfg env cost = runCycles cfg env 3
        ∧ (mainRun cfg env cost).timestamp.length = 3) := by
  constructor
  · obtain ⟨k, hk⟩ := mainLoop_completes cfg env cost cfg.DURATION 0 0 (by omega)
    exact ⟨k, by simpa using hk⟩
  · intro h1 h3 hc
    have hrun : mainRun cfg env cost = runCycles cfg env 3 := by
      rw [mainRun]
      rw [mainLoop_step cfg env cost 0 0 _ (by omega) hI, hc 0, h1]
      rw [mainLoop_step cfg env cost 1 (0 + 0 + 1) _ (by omega) hI, hc 1, h1]
      rw [mainLoop_step cfg env cost 2 (0 + 0 + 1 + 0 + 1) _ (by omega) hI,
        hc 2, h1]
      rw [mainLoop_stop cfg env cost 3 (0 + 0 + 1 + 0 + 1 + 0 + 1) _ (by omega)]
      rfl
    exact ⟨hrun, by rw [hrun, runCycles_timestamp]; rfl⟩

/-- Witness for C9 at the spec's scenario configuration. -/
theorem scheduler_loop_bounded_witness :
    mainRun scenarioConfig envAllFail (fun _ => 0)
      = runCycles scenarioConfig envAllFail 3
    ∧ (mainRun scenarioConfig envAllFail (fun _ => 0)).timestamp.length = 3 :=
  (scheduler_loop_bounded scenarioConfig envAllFail (fun _ => 0)
    (by decide)).2 rfl rfl (fun _ => rfl)

/-! ## Cell-level lemmas about the CSV snapshot -/

theorem runCyclesFile_fst (cfg : Config) (env : Env) (n : Nat) :
    (runCyclesFile cfg env n).1 = runCycles cfg env n := by
  induction n with
  | zero => rfl
  | succ n ih => simp only [runCyclesFile, runCycleFile, ih, runCycles]

theorem parseNumCell_pyOr (m : Option ℚ) (h : ∀ v : ℚ, m = some v → v ≠ 0) :
    parseNumCell (pyOr m) = m := by
  cases m with
  | none => rfl
  | some v =>
      have hv : v ≠ 0 := h v rfl
      simp [pyOr, hv, parseNumCell]

theorem csvRow_cell_ts (cfg : Config) (r : Results) (i : Nat) :
    (csvRow cfg r i).getD 0 Cell.na = Cell.ts (r.timestamp.getD i 0) := rfl

theorem csvRow_cell_site (cfg : Config) (r : Results) (i j : Nat)
    (hj : j < cfg.SITES.length) :
    (csvRow cfg r i).getD (1 + j) Cell.na
      = pyOr ((r.site_latencies (cfg.SITES.get ⟨j, hj⟩)).getD i none) := by
  have h1 : 1 + j = j + 1 := Nat.add_comm 1 j
  rw [csvRow, h1, List.getD_cons_succ]
  rw [List.getD_append _ _ _ _
    (by simp only [List.length_append, List.length_map]; omega)]
  rw [List.getD_append _ _ _ _
    (by simp only [List.length_append, List.length_map]; omega)]
  rw [List.getD_append _ _ _ _ (by simp only [List.length_map]; omega)]
  rw [List.getD_eq_getElem _ _ (by simp only [List.length_map]; omega)]
  simp

theorem csvRow_cell_dns (cfg : Config) (r : Results) (i j : Nat)
    (hj : j < cfg.DNS_SERVERS.length) :
    (csvRow cfg r i).getD (1 + cfg.SITES.length + j) Cell.na
      = pyOr ((r.dns_times (cfg.DNS_SERVERS.get ⟨j, hj⟩)).getD i none) := by
  have h1 : 1 + cfg.SITES.length + j = (cfg.SITES.length + j) + 1 := by omega
  rw [csvRow, h1, List.getD_cons_succ]
  rw [List.getD_append _ _ _ _
    (by simp only [List.length_append, List.length_map]; omega)]
  rw [List.getD_append _ _ _ _
    (by simp only [List.length_append, List.length_map]; omega)]
  rw [List.getD_append_right _ _ _ _ (by simp only [List.length_map]; omega)]
  simp only [List.length_map]
  have h2 : cfg.SITES.length + j - cfg.SITES.length = j := by omega
  rw [h2]
  rw [List.getD_eq_getElem _ _ (by simp only [List.length_map]; omega)]
  simp

theorem csvRow_cell_port (cfg : Config) (r : Results) (i j : Nat)
    (hj : j < cfg.PORTS.length) :
    (csvRow cfg r i).getD
        (1 + cfg.SITES.length + cfg.DNS_SERVERS.length + j) Cell.na
      = Cell.bool ((r.port_status (cfg.PORTS.get ⟨j, hj⟩)).getD i false) := by
  have h1 : 1 + cfg.SITES.length + cfg.DNS_SERVERS.length + j
      = (cfg.SITES.length + cfg.DNS_SERVERS.length + j) + 1 := by omega
  rw [csvRow, h1, List.getD_cons_succ]
  rw [List.getD_append _ _ _ _
    (by simp only [List.length_append, List.length_map]; omega)]
  rw [List.getD_append_right _ _ _ _
    (by simp only [List.length_append, List.length_map]; omega)]
  simp only [List.length_append, List.length_map]
  have h2 : cfg.SITES.length + cfg.DNS_SERVERS.length + j
      - (cfg.SITES.length + cfg.DNS_SERVERS.length) = j := by omega
  rw [h2]
  rw [List.getD_eq_getElem _ _ (by simp only [List.length_map]; omega)]
  simp

theorem csvRow_cell_download (cfg : Config) (r : Results) (i : Nat) :
    (csvRow cfg r i).getD
        (1 + cfg.SITES.length + cfg.DNS_SERVERS.length + cfg.PORTS.length)
        Cell.na
      = pyOr (r.download_speed.getD i none) := by
  have h1 : 1 + cfg.SITES.length + cfg.DNS_SERVERS.length + cfg.PORTS.length
      = (cfg.SITES.length + cfg.DNS_SERVERS.length + cfg.PORTS.length) + 1 := by
    omega
  rw [csvRow, h1, List.getD_cons_succ]
  rw [List.getD_append_right _ _ _ _
    (by simp only [List.length_append, List.length_map]; omega)]
  simp only [List.length_append, List.length_map]
  have h2 : cfg.SITES.length + cfg.DNS_SERVERS.length + cfg.PORTS.length
      - (cfg.SITES.length + cfg.DNS_SERVERS.length + cfg.PORTS.length) = 0 := by
    omega
  rw [h2]
  rfl

theorem csvRow_cell_upload (cfg : Config) (r : Results) (i : Nat) :
    (csvRow cfg r i).getD
        (1 + cfg.SITES.length + cfg.DNS_SERVERS.length + cfg.PORTS.length + 1)
        Cell.na
      = pyOr (r.upload_speed.getD i none) := by
  have h1 : 1 + cfg.SITES.length + cfg.DNS_SERVERS.length + cfg.PORTS.length + 1
      = (cfg.SITES.length + cfg.DNS_SERVERS.length + cfg.PORTS.length + 1) + 1 := by
    omega
  rw [csvRow, h1, List.getD_cons_succ]
  rw [List.getD_append_right _ _ _ _
    (by simp only [List.length_append, List.length_map]; omega)]
  simp only [List.length_append, List.length_map]
  have h2 : cfg.SITES.length + cfg.DNS_SERVERS.length + cfg.PORTS.length + 1
      - (cfg.SITES.length + cfg.DNS_SERVERS.length + cfg.PORTS.length) = 1 := by
    omega
  rw [h2]
  rfl

theorem save_to_csv_row (cfg : Config) (r : Results) (i : Nat)
    (hi : i < r.timestamp.length) :
    (save_to_csv cfg r).getD (i + 1) [] = csvRow cfg r i := by
  rw [save_to_csv, List.getD_cons_succ]
  rw [List.getD_eq_getElem _ _ (by simp only [List.length_map, List.length_range]; omega)]
  simp

/-! ## C7, C8: the CSV export -/

/-- C7 counterexample: a Series whose single site latency is a true zero
reading exports to exactly the same file content as one whose latency is
unavailable — the `x or "N/A"` rendering makes an unavailable entry
indistinguishable from a true zero. -/
theorem csv_zero_indistinguishable :
    save_to_csv scenarioConfig zeroLatencyResults
      = save_to_csv scenarioConfig noneLatencyResults
    ∧ zeroLatencyResults.site_latencies "https://example.com"
      ≠ noneLatencyResults.site_latencies "https://example.com" := by
  constructor
  · decide
  · decide

/-- C7 (amended): the CSV snapshot is re-written in full after every cycle —
the file content after cycle `n` is the `save_to_csv` snapshot of the whole
run-to-date (a header plus one row per sample), and the export step replaces
any previous file content `f0` rather than appending to it.  Every missing
measurement renders as the explicit `"N/A"` marker, never an empty value, so
it is distinguishable from every boolean reading and every nonzero numeric
reading; however a numeric reading of exactly zero also renders as the same
marker, so an unavailable entry is not distinguishable from a true zero. -/
theorem csv_rewritten_in_full (cfg : Config) (env : Env) (n : Nat)
    (f0 : List (List Cell)) (hn : 0 < n) :
    (runCyclesFile cfg env n).2 = save_to_csv cfg (runCycles cfg env n)
    ∧ (∀ (i : Nat) (r : Results),
        (runCycleFile cfg env i (r, f0)).2
          = save_to_csv cfg (runCycle cfg env i r))
    ∧ (runCyclesFile cfg env n).2.length = 1 + n
    ∧ pyOr none = Cell.na
    ∧ (∀ b : Bool, Cell.bool b ≠ Cell.na)
    ∧ (∀ v : ℚ, v ≠ 0 → pyOr (some v) = Cell.num v)
    ∧ pyOr (some 0) = Cell.na := by
  obtain ⟨m, rfl⟩ : ∃ m, n = m + 1 := ⟨n - 1, by omega⟩
  have hsnap : (runCyclesFile cfg env (m + 1)).2
      = save_to_csv cfg (runCycles cfg env (m + 1)) := by
    show (runCycleFile cfg env m (runCyclesFile cfg env m)).2 = _
    rw [runCycleFile]
    rw [runCyclesFile_fst]
    rfl
  refine ⟨hsnap, fun i r => rfl, ?_, rfl, fun b => by simp, fun v hv => by
    simp [pyOr, hv], by simp [pyOr]⟩
  rw [hsnap, save_to_csv]
  simp [runCycles_timestamp, Nat.add_comm]

/-- Witness for C7 at the scenario configuration after one cycle, starting
from a non-empty previous file. -/
theorem csv_rewritten_in_full_witness :
    (runCyclesFile scenarioConfig envAllFail 1).2
      = save_to_csv scenarioConfig (runCycles scenarioConfig envAllFail 1)
    ∧ (runCyclesFile scenarioConfig envAllFail 1).2.length = 1 + 1 := by
  have h := csv_rewritten_in_full scenarioConfig envAllFail 1
    [[Cell.str "stale"]] (by omega)
  exact ⟨h.1, h.2.2.1⟩

/-- C8 counterexample: re-parsing the exported cell of a true
zero-millisecond latency yields the unavailable marker, not the original
measurement — the round trip is lossy at the value zero. -/
theorem csv_round_trip_fails_at_zero :
    parseNumCell ((csvRow scenarioConfig zeroLatencyResults 0).getD 1 Cell.na)
      = none
    ∧ (zeroLatencyResults.site_latencies
        (scenarioConfig.SITES.get ⟨0, by decide⟩)).getD 0 none = some 0
    ∧ some (0 : ℚ) ≠ (none : Option ℚ) := by
  refine ⟨?_, by decide, by decide⟩
  decide

/-- C8 (amended): re-parsing the exported row of sample `i` recovers the
timestamp, every site / DNS / bandwidth measurement *provided its value is
not the number zero* (a zero reading renders as `"N/A"` and re-parses as
unavailable), every port measurement unconditionally, and an unavailable
marker round-trips losslessly; the data row for sample `i` sits at row
`i + 1` of the file. -/
theorem csv_round_trip (cfg : Config) (r : Results) (i : Nat)
    (hi : i < r.timestamp.length)
    (hS : ∀ s ∈ cfg.SITES,
        ∀ v : ℚ, (r.site_latencies s).getD i none = some v → v ≠ 0)
    (hD : ∀ d ∈ cfg.DNS_SERVERS,
        ∀ v : ℚ, (r.dns_times d).getD i none = some v → v ≠ 0)
    (hDn : ∀ v : ℚ, r.download_speed.getD i none = some v → v ≠ 0)
    (hUp : ∀ v : ℚ, r.upload_speed.getD i none = some v → v ≠ 0) :
    (save_to_csv cfg r).getD (i + 1) [] = csvRow cfg r i
    ∧ parseTsCell ((csvRow cfg r i).getD 0 Cell.na) = r.timestamp.getD i 0
    ∧ (∀ (j : Nat) (hj : j < cfg.SITES.length),
        parseNumCell ((csvRow cfg r i).getD (1 + j) Cell.na)
          = (r.site_latencies (cfg.SITES.get ⟨j, hj⟩)).getD i none)
    ∧ (∀ (j : Nat) (hj : j < cfg.DNS_SERVERS.length),
        parseNumCell ((csvRow cfg r i).getD (1 + cfg.SITES.length + j) Cell.na)
          = (r.dns_times (cfg.DNS_SERVERS.get ⟨j, hj⟩)).getD i none)
    ∧ (∀ (j : Nat) (hj : j < cfg.PORTS.length),
        parseBoolCell ((csvRow cfg r i).getD
            (1 + cfg.SITES.length + cfg.DNS_SERVERS.length + j) Cell.na)
          = (r.port_status (cfg.PORTS.get ⟨j, hj⟩)).getD i false)
    ∧ parseNumCell ((csvRow cfg r i).getD
          (1 + cfg.SITES.length + cfg.DNS_SERVERS.length + cfg.PORTS.length)
          Cell.na)
        = r.download_speed.getD i none
    ∧ parseNumCell ((csvRow cfg r i).getD
          (1 + cfg.SITES.length + cfg.DNS_SERVERS.length + cfg.PORTS.length + 1)
          Cell.na)
        = r.upload_speed.getD i none := by
  refine ⟨save_to_csv_row cfg r i hi, by rw [csvRow_cell_ts]; rfl,
    fun j hj => ?_, fun j hj => ?_, fun j hj => ?_, ?_, ?_⟩
  · rw [csvRow_cell_site cfg r i j hj,
      parseNumCell_pyOr _ (hS _ (cfg.SITES.get_mem j hj))]
  · rw [csvRow_cell_dns cfg r i j hj,
      parseNumCell_pyOr _ (hD _ (cfg.DNS_SERVERS.get_mem j hj))]
  · rw [csvRow_cell_port cfg r i j hj]
    rfl
  · rw [csvRow_cell_download cfg r i, parseNumCell_pyOr _ hDn]
  · rw [csvRow_cell_upload cfg r i, parseNumCell_pyOr _ hUp]

/-- Witness for C8 on a concrete one-sample accumulator with a nonzero
latency, an unavailable DNS time, an open port and one present bandwidth
value. -/
theorem csv_round_trip_witness :
    parseNumCell ((csvRow scenarioConfig sampleResults 0).getD 1 Cell.na)
      = some (3 / 2)
    ∧ parseTsCell ((csvRow scenarioConfig sampleResults 0).getD 0 Cell.na) = 5
    ∧ parseNumCell ((csvRow scenarioConfig sampleResults 0).getD 2 Cell.na)
      = none := by
  have h := csv_round_trip scenarioConfig sampleResults 0 (by decide)
    (by intro s hs v hv; simp [sampleResults] at hv; rw [← hv]; norm_num)
    (by intro d hd v hv; simp [sampleResults] at hv)
    (by intro v hv; simp [sampleResults] at hv)
    (by intro v hv; simp [sampleResults] at hv; rw [← hv]; norm_num)
  refine ⟨(h.2.2.1 0 (by decide)).trans rfl, h.2.1.trans rfl, ?_⟩
  have h2 := h.2.2.2.2.2.1
  simpa [scenarioConfig, sampleResults] using h2
